import Mathlib

/-!
Shallow embedding of `gpumon` (src/main.cpp): a terminal dashboard that
reads GPU telemetry counters from sysfs-like text files and renders them
as color-banded progress bars.

Modelling conventions:
* A C++ `double` is modelled as `Double`: an exact rational for finite
  values, plus `nan`, `inf`, `ninf` for the IEEE special values that
  arise from division by zero.  Finite arithmetic is exact (rounding is
  irrelevant to the properties considered here); comparisons follow IEEE
  semantics (every comparison involving `nan` is false).
* `unsigned long long` values are natural numbers; subtraction wraps
  modulo `2 ^ 64` as in C++ (`usub64`).
* The filesystem is a map `Fs` from a relative path to the list of lines
  of the file, or `none` when the file is absent or unreadable.
* Functions that can throw an uncaught C++ exception (`std::stoull`,
  `std::stod` on malformed input) return `Option`; `none` models the
  exception, which no caller in the program catches, so it terminates
  the process.
* `draw_bar` returns the trace of ncurses drawing operations it performs;
  the double-to-int conversion of a `nan` (or of an out-of-`int`-range
  value) is undefined behavior in C++ and is modelled as `none`.
-/

namespace Gpumon

/- The Batteries rational-number operations are `@[irreducible]`, which
prevents `decide` from evaluating concrete scenarios; restore the
default reducibility locally so closed facts about concrete readings can
be checked by evaluation. -/
attribute [local semireducible] Rat.add Rat.mul Rat.sub Rat.inv

/-- Model of a C++ `double`: an exact rational for finite values plus the
IEEE special values reachable in this program (quiet NaN and the two
infinities produced by dividing a finite number by zero). -/
inductive Double where
  | fin (q : ℚ)
  | nan
  | inf
  | ninf
deriving DecidableEq, Repr

/-- IEEE `<` on doubles: any comparison involving NaN is false. -/
def dlt : Double → Double → Bool
  | .fin a, .fin b => a < b
  | .fin _, .inf => true
  | .ninf, .fin _ => true
  | .ninf, .inf => true
  | _, _ => false

/-- IEEE multiplication on doubles (finite products are exact). -/
def dmul : Double → Double → Double
  | .fin a, .fin b => .fin (a * b)
  | .nan, _ => .nan
  | _, .nan => .nan
  | .inf, .inf => .inf
  | .inf, .ninf => .ninf
  | .ninf, .inf => .ninf
  | .ninf, .ninf => .inf
  | .inf, .fin b => if 0 < b then .inf else if b < 0 then .ninf else .nan
  | .fin a, .inf => if 0 < a then .inf else if a < 0 then .ninf else .nan
  | .ninf, .fin b => if 0 < b then .ninf else if b < 0 then .inf else .nan
  | .fin a, .ninf => if 0 < a then .ninf else if a < 0 then .inf else .nan

/-- IEEE division on doubles: a positive finite number divided by (+)zero
is `inf`, a negative one is `ninf`, and zero over zero is `nan`. -/
def ddiv : Double → Double → Double
  | .fin a, .fin b =>
      if b ≠ 0 then .fin (a / b)
      else if 0 < a then .inf else if a < 0 then .ninf else .nan
  | .nan, _ => .nan
  | _, .nan => .nan
  | .inf, .fin b => if b < 0 then .ninf else .inf
  | .ninf, .fin b => if b < 0 then .inf else .ninf
  | .fin _, .inf => .fin 0
  | .fin _, .ninf => .fin 0
  | _, _ => .nan

/-- `std::clamp(v, lo, hi)`: exactly `v < lo ? lo : (hi < v ? hi : v)`,
so a NaN argument is returned unchanged. -/
def clampCpp (v lo hi : Double) : Double :=
  if dlt v lo then lo else if dlt hi v then hi else v

/-- Truncation of a rational toward zero, as the C++ conversion of a
double to an integer type does for in-range finite values. -/
def truncRat (q : ℚ) : ℤ :=
  if 0 ≤ q then ⌊q⌋ else ⌈q⌉

/-- `static_cast<int>` applied to a double.  The conversion is undefined
behavior when the value is NaN, infinite, or does not fit in `int`
(32-bit, two's complement); those cases are `none`. -/
def castInt (d : Double) : Option ℤ :=
  match d with
  | .fin q =>
      let t := truncRat q
      if -(2 ^ 31) ≤ t ∧ t < 2 ^ 31 then some t else none
  | _ => none

/-- Wrapping subtraction of `unsigned long long` values (operands are
assumed reduced mod `2 ^ 64`, as every value read via `stoull` is). -/
def usub64 (a b : ℕ) : ℕ :=
  (a + 2 ^ 64 - b % 2 ^ 64) % 2 ^ 64

/-- The filesystem under the device root: maps a relative path to the
lines of the file, `none` when absent or unreadable. -/
abbrev Fs := String → Option (List String)

/-- `device::read_file`: opens the file; returns the sentinel string "0"
when it cannot be opened, otherwise the first line via `std::getline`
(empty string for an empty file).  It never throws. -/
def read_file (fs : Fs) (path : String) : String :=
  match fs path with
  | none => "0"
  | some lines => lines.headD ""

/-- Numeric value of a list of decimal digit characters. -/
def digitsToNat (ds : List Char) : ℕ :=
  ds.foldl (fun acc c => acc * 10 + (c.toNat - 48)) 0

/-- Splits an optional leading sign off a character list. -/
def splitSign : List Char → Bool × List Char
  | '-' :: rest => (true, rest)
  | '+' :: rest => (false, rest)
  | cs => (false, cs)

/-- `std::stoull` on a string: skips leading whitespace, accepts an
optional sign then a non-empty run of decimal digits (further characters
are ignored); a negative value wraps modulo `2 ^ 64`.  `none` models the
`std::invalid_argument` (no digits) or `std::out_of_range` exception,
which is uncaught in this program. -/
def stoull (s : String) : Option ℕ :=
  let cs := s.toList.dropWhile (fun c => c.isWhitespace)
  let (neg, cs) := splitSign cs
  let ds := cs.takeWhile (fun c => c.isDigit)
  if ds.isEmpty then none
  else
    let v := digitsToNat ds
    if 2 ^ 64 ≤ v then none
    else some (if neg then (2 ^ 64 - v) % 2 ^ 64 else v)

/-- `std::stod` on the plain decimal strings this program's telemetry
files contain: optional whitespace, optional sign, digits with an
optional fractional part.  `none` models the uncaught
`std::invalid_argument` exception on a string with no digits.
(Exponent, hexadecimal and infinity/nan spellings do not occur in the
telemetry format and are not modelled.) -/
def stod (s : String) : Option Double :=
  let cs := s.toList.dropWhile (fun c => c.isWhitespace)
  let (neg, cs) := splitSign cs
  let intPart := cs.takeWhile (fun c => c.isDigit)
  let rest := cs.dropWhile (fun c => c.isDigit)
  let fracPart := match rest with
    | '.' :: r => r.takeWhile (fun c => c.isDigit)
    | _ => []
  if intPart.isEmpty ∧ fracPart.isEmpty then none
  else
    let v : ℚ := digitsToNat intPart + (digitsToNat fracPart : ℚ) / 10 ^ fracPart.length
    some (.fin (if neg then -v else v))

/-- The calibration constants of `class device`, read once at
construction (the `m_path` prefix is folded into `Fs`). -/
structure device where
  m_vram : ℕ
  m_gtt : ℕ
  m_vis_vram : ℕ
  m_power_min : ℕ
  m_power_max : ℕ
  m_temp_crit : ℕ
  m_fan_min : ℕ
  m_fan_max : ℕ
  m_vram_str : String
  m_gtt_str : String
  m_vis_vram_str : String
deriving DecidableEq, Repr

/-- The `device` constructor: reads every calibration file once via
`read_file` (a missing file yields the sentinel "0", hence the value 0)
and converts with `std::stoull`; `none` models a malformed calibration
file, whose uncaught exception aborts startup. -/
def device.init (fs : Fs) : Option device := do
  let vram ← stoull (read_file fs "mem_info_vram_total")
  let gtt ← stoull (read_file fs "mem_info_gtt_total")
  let vis ← stoull (read_file fs "mem_info_vis_vram_total")
  let pmin ← stoull (read_file fs "hwmon/hwmon1/power1_cap_min")
  let pmax ← stoull (read_file fs "hwmon/hwmon1/power1_cap_max")
  let tcrit ← stoull (read_file fs "hwmon/hwmon1/temp1_crit")
  let fmin ← stoull (read_file fs "hwmon/hwmon1/fan1_min")
  let fmax ← stoull (read_file fs "hwmon/hwmon1/fan1_max")
  pure
    { m_vram := vram
      m_gtt := gtt
      m_vis_vram := vis
      m_power_min := pmin
      m_power_max := pmax
      m_temp_crit := tcrit
      m_fan_min := fmin
      m_fan_max := fmax
      m_vram_str := "/" ++ toString (vram / (1024 * 1024)) ++ "MiB"
      m_gtt_str := "/" ++ toString (gtt / (1024 * 1024)) ++ "MiB"
      m_vis_vram_str := "/" ++ toString (vis / (1024 * 1024)) ++ "MiB" }

/-- `device::busy`: reads `gpu_busy_percent`, returns the raw string with
a '%' suffix and `stod(pc) * 0.01` as the fraction. -/
def device.busy (_d : device) (fs : Fs) : Option (String × Double) :=
  let pc := read_file fs "gpu_busy_percent"
  (stod pc).map (fun v => (pc ++ "%", dmul v (.fin (1 / 100))))

/-- `device::vram`: reads `mem_info_vram_used`; the fraction is
`used / m_vram` in double arithmetic (so `inf` or `nan` when the
calibrated total is zero), the text is the used MiB (truncating
division) followed by the precomputed `"/<total>MiB"` suffix. -/
def device.vram (d : device) (fs : Fs) : Option (String × Double) :=
  (stoull (read_file fs "mem_info_vram_used")).map (fun u =>
    let pc := ddiv (.fin (u : ℚ)) (.fin (d.m_vram : ℚ))
    (toString (u / (1024 * 1024)) ++ d.m_vram_str, pc))

/-- `device::power`: reads `hwmon/hwmon1/power1_average`; both
subtractions are performed in `unsigned long long` (wrapping mod
`2 ^ 64`) before the conversion to double, and the text is the truncated
watt value with a 'W' suffix. -/
def device.power (d : device) (fs : Fs) : Option (String × Double) :=
  (stoull (read_file fs "hwmon/hwmon1/power1_average")).map (fun p =>
    let range : Double := .fin (usub64 d.m_power_max d.m_power_min : ℚ)
    let pc := ddiv (.fin (usub64 p d.m_power_min : ℚ)) range
    (toString (p / 1000000) ++ "W", pc))

/-- The three color bands of the bar renderer. -/
inductive ColorBand where
  | ok
  | warn
  | bad
deriving DecidableEq, Repr

/-- Band selection inside `draw_bar`:
`pc < 0.33 ? ok : pc < 0.67 ? warn : bad` (IEEE comparisons). -/
def bar_color (pc : Double) : ColorBand :=
  if dlt pc (.fin (33 / 100)) then .ok
  else if dlt pc (.fin (67 / 100)) then .warn
  else .bad

/-- One ncurses drawing action performed by `draw_bar`, in order. -/
inductive DrawOp where
  | clearRow
  | openBracket
  | glyphs (count : ℕ) (c : ColorBand)
  | labelText (s : String)
  | closeBracket
deriving DecidableEq, Repr

/-- `draw_bar(row, col, width, pc, str)` as the trace of drawing
operations it performs (row/col only position the output and are
omitted).  It clears the row, clamps `pc` with `std::clamp`, shrinks
`width` by `2 + str.size()`, computes `bars = (int)(width * pc)` and
returns after the clear when `bars < 0`; otherwise it draws the opening
bracket, `bars` bar glyphs in the band color, the label and the closing
bracket.  `none` models the undefined double-to-int conversion (NaN or
out-of-range product). -/
def draw_bar (width : ℤ) (pc : Double) (str : String) : Option (List DrawOp) :=
  let pc := clampCpp pc (.fin 0) (.fin 1)
  let width := width - (2 + (str.length : ℤ))
  match castInt (dmul (.fin (width : ℚ)) pc) with
  | none => none
  | some bars =>
      if bars < 0 then some [.clearRow]
      else some [.clearRow, .openBracket, .glyphs bars.toNat (bar_color pc),
                 .labelText str, .closeBracket]

/-- The canonical metric names, in the order of `enum info` (so the index
of a name is its enumerant, as in `info::info_map`). -/
def info_names : List String :=
  ["busy", "vram", "gtt", "cpu_vis", "power", "temperature", "fan",
   "voltage", "gfx_clock", "mem_clock", "link_speed", "link_width"]

/-- `info::row_count`: the number of metric kinds. -/
def row_count : ℕ := 12

/-- Lookup in `info::info_map`: the enumerant of a canonical name, or
`none` for an unknown name. -/
def info_map (s : String) : Option ℕ :=
  info_names.findIdx? (fun n => n = s)

/-- `disable_option`: clears the flag of the named metric; an unknown
name is silently ignored. -/
def disable_option (enabled_rows : List Bool) (opt : String) : List Bool :=
  match info_map opt with
  | some i => enabled_rows.set i false
  | none => enabled_rows

/-- The comma-splitting `while` loop of `disable_options`: cuts the
option string at every comma, keeping the final token after the last
comma (a comma-free string, including the empty one, is itself one
token). -/
def split_commas : List Char → List (List Char)
  | [] => [[]]
  | c :: rest =>
      if c = ',' then [] :: split_commas rest
      else
        match split_commas rest with
        | t :: ts => (c :: t) :: ts
        | [] => [[c]]

/-- `disable_options`: splits the list on commas and disables each token
in order. -/
def disable_options (enabled_rows : List Bool) (options : String) : List Bool :=
  (split_commas options.toList).foldl
    (fun rows t => disable_option rows (String.mk t)) enabled_rows

/-- The all-disabled test in `main`:
`std::all_of(enabled_rows, [](auto b){return !b;})`. -/
def allDisabled (enabled_rows : List Bool) : Bool :=
  enabled_rows.all (fun b => !b)

/-- What `main` does after option parsing, before any ncurses call. -/
structure StartResult where
  printed : Option String
  exit_code : ℕ
  entered_ui : Bool
deriving DecidableEq, Repr

/-- The startup decision in `main`: when every row is disabled it prints
a one-line notice and returns `EXIT_SUCCESS` without touching the
terminal; otherwise it installs the signal handlers, initializes ncurses
and enters the render loop. -/
def start_decision (enabled_rows : List Bool) : StartResult :=
  if allDisabled enabled_rows then
    { printed := some "All rows disabled. Exiting.", exit_code := 0, entered_ui := false }
  else
    { printed := none, exit_code := 0, entered_ui := true }

/-! Concrete test fixtures used by the closed theorems below. -/

/-- The all-zero device produced by constructing against a filesystem
with no calibration files (every `read_file` yields the sentinel "0"). -/
def dev0 : device :=
  { m_vram := 0, m_gtt := 0, m_vis_vram := 0, m_power_min := 0,
    m_power_max := 0, m_temp_crit := 0, m_fan_min := 0, m_fan_max := 0,
    m_vram_str := "/0MiB", m_gtt_str := "/0MiB", m_vis_vram_str := "/0MiB" }

/-- Filesystem exposing only a vram usage reading of 5 MiB; every
calibration file (in particular `mem_info_vram_total`) is missing. -/
def fsVram5 : Fs := fun p =>
  if p = "mem_info_vram_used" then some ["5242880"] else none

/-- Filesystem with a power range of 10..110 µW and a current reading of
5 µW, below the minimum cap. -/
def fsPowLow : Fs := fun p =>
  if p = "hwmon/hwmon1/power1_average" then some ["5"]
  else if p = "hwmon/hwmon1/power1_cap_min" then some ["10"]
  else if p = "hwmon/hwmon1/power1_cap_max" then some ["110"]
  else none

/-- The device constructed from `fsPowLow`. -/
def devPowLow : device :=
  { m_vram := 0, m_gtt := 0, m_vis_vram := 0, m_power_min := 10,
    m_power_max := 110, m_temp_crit := 0, m_fan_min := 0, m_fan_max := 0,
    m_vram_str := "/0MiB", m_gtt_str := "/0MiB", m_vis_vram_str := "/0MiB" }

/-- Filesystem for the spec scenario: power caps 0 and 100000000 µW,
current average 33000000 µW. -/
def fsPow33 : Fs := fun p =>
  if p = "hwmon/hwmon1/power1_average" then some ["33000000"]
  else if p = "hwmon/hwmon1/power1_cap_min" then some ["0"]
  else if p = "hwmon/hwmon1/power1_cap_max" then some ["100000000"]
  else none

/-- The device constructed from `fsPow33`. -/
def devPow33 : device :=
  { m_vram := 0, m_gtt := 0, m_vis_vram := 0, m_power_min := 0,
    m_power_max := 100000000, m_temp_crit := 0, m_fan_min := 0, m_fan_max := 0,
    m_vram_str := "/0MiB", m_gtt_str := "/0MiB", m_vis_vram_str := "/0MiB" }

/-- Filesystem where every file has the unparsable first line "abc". -/
def fsAbc : Fs := fun _ => some ["abc"]

/-- Filesystem where `mem_info_vram_used` exists but is empty. -/
def fsEmptyVram : Fs := fun p =>
  if p = "mem_info_vram_used" then some [] else none

/-! Helper lemmas. -/

/-- `std::clamp` of a finite double into `[0, 1]` is `min 1 (max 0 pc)`. -/
theorem clampCpp_fin (pc : ℚ) :
    clampCpp (.fin pc) (.fin 0) (.fin 1) = .fin (min 1 (max 0 pc)) := by
  simp only [clampCpp, dlt, decide_eq_true_eq]
  split_ifs with h1 h2
  · rw [max_eq_left h1.le, min_eq_right zero_le_one]
  · rw [max_eq_right (le_of_not_lt h1), min_eq_left h2.le]
  · rw [max_eq_right (le_of_not_lt h1), min_eq_right (le_of_not_lt h2)]

theorem clamp01_nonneg (pc : ℚ) : 0 ≤ min 1 (max 0 pc) :=
  le_min zero_le_one (le_max_left 0 pc)

theorem clamp01_le_one (pc : ℚ) : min 1 (max 0 pc) ≤ 1 :=
  min_le_left 1 _

/-- Truncation toward zero agrees with the floor on nonnegative values. -/
theorem truncRat_eq_floor (q : ℚ) (h : 0 ≤ q) : truncRat q = ⌊q⌋ :=
  if_pos h

theorem truncRat_nonpos (q : ℚ) (h : q ≤ 0) : truncRat q ≤ 0 := by
  unfold truncRat
  split_ifs with h0
  · have : q = 0 := le_antisymm h h0
    simp [this]
  · exact Int.ceil_le.mpr (by exact_mod_cast h)

theorem le_truncRat_of_nonpos (q : ℚ) (h : q ≤ 0) : q ≤ (truncRat q : ℚ) := by
  unfold truncRat
  split_ifs with h0
  · have : q = 0 := le_antisymm h h0
    simp [this]
  · exact Int.le_ceil q

/-- C1: `draw_bar` clamps the fraction to `[0, 1]` before use (to
`min 1 (max 0 pc)`), reserves `2 + len(label)` columns of the width, and
on a nonnegative, int-sized track draws exactly
`⌊track * clampedFraction⌋` bar glyphs, a count that never exceeds the
track. -/
theorem draw_bar_clamps_and_floors (width : ℤ) (pc : ℚ) (str : String)
    (h0 : 0 ≤ width - (2 + (str.length : ℤ)))
    (h1 : width - (2 + (str.length : ℤ)) < 2 ^ 31) :
    clampCpp (.fin pc) (.fin 0) (.fin 1) = .fin (min 1 (max 0 pc)) ∧
    0 ≤ min 1 (max 0 pc) ∧ min 1 (max 0 pc) ≤ 1 ∧
    draw_bar width (.fin pc) str =
      some [.clearRow, .openBracket,
        .glyphs (⌊(((width - (2 + (str.length : ℤ))) : ℤ) : ℚ) * min 1 (max 0 pc)⌋).toNat
          (bar_color (.fin (min 1 (max 0 pc)))),
        .labelText str, .closeBracket] ∧
    ⌊(((width - (2 + (str.length : ℤ))) : ℤ) : ℚ) * min 1 (max 0 pc)⌋ ≤
      width - (2 + (str.length : ℤ)) := by
  have hq0 : 0 ≤ min 1 (max 0 pc) := clamp01_nonneg pc
  have hq1 : min 1 (max 0 pc) ≤ 1 := clamp01_le_one pc
  have hx0 : 0 ≤ (((width - (2 + (str.length : ℤ))) : ℤ) : ℚ) * min 1 (max 0 pc) :=
    mul_nonneg (by exact_mod_cast h0) hq0
  have hxle : (((width - (2 + (str.length : ℤ))) : ℤ) : ℚ) * min 1 (max 0 pc) ≤
      (((width - (2 + (str.length : ℤ))) : ℤ) : ℚ) :=
    mul_le_of_le_one_right (by exact_mod_cast h0) hq1
  have hfl0 : 0 ≤ ⌊(((width - (2 + (str.length : ℤ))) : ℤ) : ℚ) * min 1 (max 0 pc)⌋ :=
    Int.floor_nonneg.mpr hx0
  have hflle : ⌊(((width - (2 + (str.length : ℤ))) : ℤ) : ℚ) * min 1 (max 0 pc)⌋ ≤
      width - (2 + (str.length : ℤ)) := by
    have h := Int.floor_le_floor hxle
    rwa [Int.floor_intCast] at h
  have hcast : castInt (dmul (.fin ((((width - (2 + (str.length : ℤ))) : ℤ) : ℚ)))
      (.fin (min 1 (max 0 pc)))) =
      some ⌊(((width - (2 + (str.length : ℤ))) : ℤ) : ℚ) * min 1 (max 0 pc)⌋ := by
    simp only [dmul, castInt]
    rw [truncRat_eq_floor _ hx0]
    rw [if_pos ⟨le_trans (by norm_num) hfl0, lt_of_le_of_lt hflle h1⟩]
  refine ⟨clampCpp_fin pc, hq0, hq1, ?_, hflle⟩
  simp only [draw_bar, clampCpp_fin, hcast]
  rw [if_neg (not_lt.mpr hfl0)]

/-- C1 witness: width 20, fraction 3/2 (clamped to 1), label "x" — the
full 17-column track is drawn. -/
theorem draw_bar_clamps_and_floors_witness :
    draw_bar 20 (.fin (3 / 2)) "x" =
      some [.clearRow, .openBracket, .glyphs 17 .bad, .labelText "x", .closeBracket] := by
  have h := draw_bar_clamps_and_floors 20 (3 / 2) "x" (by decide) (by decide)
  rw [h.2.2.2.1]
  decide

/-- C2 counterexample: at `width = 1` with the empty label the track
width is `1 - 2 = -1 < 0`, yet with fraction 0 the bar count
`(int)(-1 * 0.0) = 0` is not negative, so `draw_bar` does NOT stop after
clearing the row: it still draws the brackets and the label. -/
theorem draw_bar_negative_track_cex :
    (1 : ℤ) - (2 + ((("" : String).length : ℤ))) < 0 ∧
    draw_bar 1 (.fin 0) "" =
      some [.clearRow, .openBracket, .glyphs 0 .ok, .labelText "", .closeBracket] := by
  constructor
  · decide
  · decide

/-- C2 amended: whenever the computed track width is negative (and
within `int` range), `draw_bar` draws zero bar glyphs and performs no
other write than the row clear, the brackets and the label: it stops
after clearing the row exactly when the truncated product is negative;
when the product truncates to zero (for instance fraction 0) the
brackets and the label are still drawn, with an empty bar. -/
theorem draw_bar_negative_track (width : ℤ) (pc : ℚ) (str : String)
    (hneg : width - (2 + (str.length : ℤ)) < 0)
    (hlo : -(2 ^ 31) ≤ width - (2 + (str.length : ℤ))) :
    draw_bar width (.fin pc) str = some [.clearRow] ∨
    draw_bar width (.fin pc) str =
      some [.clearRow, .openBracket, .glyphs 0 (bar_color (.fin (min 1 (max 0 pc)))),
            .labelText str, .closeBracket] := by
  have hq0 : 0 ≤ min 1 (max 0 pc) := clamp01_nonneg pc
  have hq1 : min 1 (max 0 pc) ≤ 1 := clamp01_le_one pc
  have htq : (((width - (2 + (str.length : ℤ))) : ℤ) : ℚ) ≤ 0 := by
    exact_mod_cast hneg.le
  have hx0 : (((width - (2 + (str.length : ℤ))) : ℤ) : ℚ) * min 1 (max 0 pc) ≤ 0 :=
    mul_nonpos_of_nonpos_of_nonneg htq hq0
  have hxge : (((width - (2 + (str.length : ℤ))) : ℤ) : ℚ) ≤
      (((width - (2 + (str.length : ℤ))) : ℤ) : ℚ) * min 1 (max 0 pc) := by
    nlinarith
  have htr0 : truncRat ((((width - (2 + (str.length : ℤ))) : ℤ) : ℚ) * min 1 (max 0 pc)) ≤ 0 :=
    truncRat_nonpos _ hx0
  have htrge : -(2 ^ 31) ≤
      truncRat ((((width - (2 + (str.length : ℤ))) : ℤ) : ℚ) * min 1 (max 0 pc)) := by
    have h1 : ((-(2 ^ 31) : ℤ) : ℚ) ≤
        (truncRat ((((width - (2 + (str.length : ℤ))) : ℤ) : ℚ) * min 1 (max 0 pc)) : ℚ) := by
      calc ((-(2 ^ 31) : ℤ) : ℚ) ≤ (((width - (2 + (str.length : ℤ))) : ℤ) : ℚ) := by
              exact_mod_cast hlo
        _ ≤ (((width - (2 + (str.length : ℤ))) : ℤ) : ℚ) * min 1 (max 0 pc) := hxge
        _ ≤ _ := le_truncRat_of_nonpos _ hx0
    exact_mod_cast h1
  have hcast : castInt (dmul (.fin ((((width - (2 + (str.length : ℤ))) : ℤ) : ℚ)))
      (.fin (min 1 (max 0 pc)))) =
      some (truncRat ((((width - (2 + (str.length : ℤ))) : ℤ) : ℚ) * min 1 (max 0 pc))) := by
    simp only [dmul, castInt]
    rw [if_pos ⟨htrge, lt_of_le_of_lt htr0 (by norm_num)⟩]
  rcases lt_or_eq_of_le htr0 with hlt | heq
  · left
    simp only [draw_bar, clampCpp_fin, hcast]
    rw [if_pos hlt]
  · right
    simp only [draw_bar, clampCpp_fin, hcast]
    rw [if_neg (by rw [heq]; exact lt_irrefl 0), heq]
    rfl

/-- C2 witness: width 1, fraction 1/2, empty label — the track width is
-1 and zero bar glyphs are drawn (here through the early return). -/
theorem draw_bar_negative_track_witness :
    draw_bar 1 (.fin (1 / 2)) "" = some [.clearRow] ∨
    draw_bar 1 (.fin (1 / 2)) "" =
      some [.clearRow, .openBracket, .glyphs 0 (bar_color (.fin (min 1 (max 0 (1 / 2))))),
            .labelText "", .closeBracket] :=
  draw_bar_negative_track 1 (1 / 2) "" (by decide) (by decide)

/-- C3: the bar renderer's band is `ok` below 0.33, `warn` from 0.33 up
to (excluding) 0.67, `bad` from 0.67; in particular at exactly 0.33 the
strict comparison fails and the band is `warn`. -/
theorem bar_color_bands (q : ℚ) :
    (q < 33 / 100 → bar_color (.fin q) = .ok) ∧
    (33 / 100 ≤ q → q < 67 / 100 → bar_color (.fin q) = .warn) ∧
    (67 / 100 ≤ q → bar_color (.fin q) = .bad) ∧
    bar_color (.fin (33 / 100)) = .warn := by
  refine ⟨?_, ?_, ?_, by decide⟩
  · intro h
    simp only [bar_color, dlt, decide_eq_true_eq]
    rw [if_pos h]
  · intro h1 h2
    simp only [bar_color, dlt, decide_eq_true_eq]
    rw [if_neg (not_lt.mpr h1), if_pos h2]
  · intro h
    simp only [bar_color, dlt, decide_eq_true_eq]
    rw [if_neg (not_lt.mpr (le_trans (by norm_num) h)), if_neg (not_lt.mpr h)]

/-- C3 witness: the fraction 1/2 lies in the middle band. -/
theorem bar_color_bands_witness : bar_color (.fin (1 / 2)) = .warn :=
  (bar_color_bands (1 / 2)).2.1 (by norm_num) (by norm_num)

/-- C4 counterexample: with caps 10..110 µW and a current reading of
5 µW (below the minimum cap) the claimed formula would give the negative
fraction (5 − 10)/(110 − 10); but `p - m_power_min` is evaluated in
`unsigned long long`, so the fraction actually computed is the huge
positive value (2^64 − 5)/100. -/
theorem power_below_min_cex :
    device.init fsPowLow = some devPowLow ∧
    devPowLow.power fsPowLow = some ("0W", .fin ((2 ^ 64 - 5 : ℚ) / 100)) ∧
    (0 : ℚ) < (2 ^ 64 - 5 : ℚ) / 100 ∧
    (2 ^ 64 - 5 : ℚ) / 100 ≠ ((5 : ℚ) - 10) / ((110 : ℚ) - 10) := by
  exact ⟨by decide, by decide, by decide, by decide⟩

/-- C4 amended: `device::power` returns the text `"<watts>W"` (watts by
truncating division of the microwatt reading by 10^6) and the fraction
((current − minCap) mod 2^64) / (maxCap − minCap): for readings at or
above the minimum cap this is exactly (current − minCap)/(maxCap −
minCap), and for readings below the minimum cap the unsigned
subtraction wraps, producing the large positive fraction
(2^64 + current − minCap)/(maxCap − minCap) — never a negative one. -/
theorem power_formula (d : device) (fs : Fs) (p : ℕ)
    (hr : stoull (read_file fs "hwmon/hwmon1/power1_average") = some p)
    (hp : p < 2 ^ 64)
    (hlt : d.m_power_min < d.m_power_max)
    (hM : d.m_power_max < 2 ^ 64) :
    (d.m_power_min ≤ p →
      d.power fs = some (toString (p / 1000000) ++ "W",
        .fin (((p : ℚ) - (d.m_power_min : ℚ)) /
          ((d.m_power_max : ℚ) - (d.m_power_min : ℚ))))) ∧
    (p < d.m_power_min →
      d.power fs = some (toString (p / 1000000) ++ "W",
        .fin (((2 ^ 64 : ℚ) + (p : ℚ) - (d.m_power_min : ℚ)) /
          ((d.m_power_max : ℚ) - (d.m_power_min : ℚ)))) ∧
      0 < ((2 ^ 64 : ℚ) + (p : ℚ) - (d.m_power_min : ℚ)) /
          ((d.m_power_max : ℚ) - (d.m_power_min : ℚ))) := by
  have hmin64 : d.m_power_min < 2 ^ 64 := lt_trans hlt hM
  have hrange : usub64 d.m_power_max d.m_power_min = d.m_power_max - d.m_power_min := by
    unfold usub64
    omega
  have hden0 : ((d.m_power_max - d.m_power_min : ℕ) : ℚ) ≠ 0 :=
    Nat.cast_ne_zero.mpr (Nat.sub_ne_zero_of_lt hlt)
  have hdenq : ((d.m_power_max - d.m_power_min : ℕ) : ℚ) =
      (d.m_power_max : ℚ) - (d.m_power_min : ℚ) := Nat.cast_sub hlt.le
  constructor
  · intro hmp
    have hnum : usub64 p d.m_power_min = p - d.m_power_min := by
      unfold usub64
      omega
    have hnumq : ((p - d.m_power_min : ℕ) : ℚ) = (p : ℚ) - (d.m_power_min : ℚ) :=
      Nat.cast_sub hmp
    simp only [device.power, hr, Option.map_some', hnum, hrange, ddiv]
    rw [if_pos hden0, hnumq, hdenq]
  · intro hpm
    have hnum : usub64 p d.m_power_min = p + 2 ^ 64 - d.m_power_min := by
      unfold usub64
      omega
    have hnumq : ((p + 2 ^ 64 - d.m_power_min : ℕ) : ℚ) =
        (2 ^ 64 : ℚ) + (p : ℚ) - (d.m_power_min : ℚ) := by
      rw [Nat.cast_sub (by omega)]
      push_cast
      ring
    have hminq : (d.m_power_min : ℚ) < 2 ^ 64 := by exact_mod_cast hmin64
    have hpq : (0 : ℚ) ≤ (p : ℚ) := Nat.cast_nonneg p
    refine ⟨?_, div_pos (by linarith) (by rw [← hdenq]; positivity)⟩
    simp only [device.power, hr, Option.map_some', hnum, hrange, ddiv]
    rw [if_pos hden0, hnumq, hdenq]

/-- C4 witness: the spec scenario — caps 0 and 100000000 µW, current
average 33000000 µW — yields fraction 33/100 and text "33W". -/
theorem power_formula_witness :
    devPow33.power fsPow33 = some ("33W", .fin (33 / 100)) := by
  have h := (power_formula devPow33 fsPow33 33000000 (by decide) (by decide)
    (by decide) (by decide)).1 (by decide)
  rw [h]
  decide

/-- `std::clamp` sends +infinity to the upper bound 1 (the comparison
`1 < inf` holds), not to 0. -/
theorem clampCpp_inf : clampCpp .inf (.fin 0) (.fin 1) = .fin 1 := rfl

/-- `std::clamp` returns a NaN argument unchanged: both comparisons
against the bounds are false. -/
theorem clampCpp_nan : clampCpp .nan (.fin 0) (.fin 1) = .nan := rfl

/-- C5 counterexample: constructing the device against a filesystem with
no calibration files gives `m_vram = 0` (the sentinel); a current vram
reading of 5 MiB then yields the fraction +infinity, and `draw_bar`
renders it as a FULL 12-glyph bar in the `bad` band — not as 0%. -/
theorem inf_fraction_full_bar_cex :
    device.init fsVram5 = some dev0 ∧
    dev0.vram fsVram5 = some ("5/0MiB", .inf) ∧
    draw_bar 20 .inf "5/0MiB" =
      some [.clearRow, .openBracket, .glyphs 12 .bad, .labelText "5/0MiB", .closeBracket] ∧
    (12 : ℕ) ≠ 0 := by
  exact ⟨by decide, by decide, by decide, by decide⟩

/-- C5 amended: a fraction of +infinity (e.g. a nonzero reading over a
zero startup total) is clamped to 1 and rendered as a full-track bar in
the `bad` band, not as 0%; a NaN fraction (zero over zero) survives
`std::clamp` unchanged and reaches the double-to-int conversion, which
is undefined behavior — no defined rendering exists for it. -/
theorem draw_bar_inf_nan (width : ℤ) (str : String)
    (h0 : 0 ≤ width - (2 + (str.length : ℤ)))
    (h1 : width - (2 + (str.length : ℤ)) < 2 ^ 31) :
    draw_bar width .inf str =
      some [.clearRow, .openBracket,
            .glyphs (width - (2 + (str.length : ℤ))).toNat .bad,
            .labelText str, .closeBracket] ∧
    draw_bar width .nan str = none := by
  have hc : castInt (dmul (.fin ((((width - (2 + (str.length : ℤ))) : ℤ) : ℚ))) (.fin 1)) =
      some (width - (2 + (str.length : ℤ))) := by
    simp only [dmul, castInt, mul_one]
    rw [truncRat_eq_floor _ (by exact_mod_cast h0), Int.floor_intCast]
    rw [if_pos ⟨le_trans (by norm_num) h0, h1⟩]
  constructor
  · simp only [draw_bar, clampCpp_inf, hc]
    rw [if_neg (not_lt.mpr h0)]
    rfl
  · simp only [draw_bar, clampCpp_nan]
    rfl

/-- C5 witness: at width 20 with label "x", +infinity draws the full
17-column track and NaN has no defined result. -/
theorem draw_bar_inf_nan_witness :
    draw_bar 20 .inf "x" =
      some [.clearRow, .openBracket, .glyphs 17 .bad, .labelText "x", .closeBracket] ∧
    draw_bar 20 .nan "x" = none := by
  have h := draw_bar_inf_nan 20 "x" (by decide) (by decide)
  exact ⟨by rw [h.1]; decide, h.2⟩

/-- C6: when the telemetry file is absent or unreadable, `read_file`
returns the sentinel string "0"; being a total function, it surfaces no
error to the caller. -/
theorem read_file_missing_sentinel (fs : Fs) (path : String) (h : fs path = none) :
    read_file fs path = "0" := by
  simp [read_file, h]

/-- C6 witness: on the empty filesystem every read yields "0". -/
theorem read_file_missing_sentinel_witness :
    read_file (fun _ => none) "gpu_busy_percent" = "0" :=
  read_file_missing_sentinel (fun _ => none) "gpu_busy_percent" rfl

/-- C7: a telemetry file whose first line does not parse as a number
makes the fetch fatal: the `std::stoull` / `std::stod` exception
propagates out of `device::vram` / `device::busy` (modelled as `none`),
and no caller in the program catches it, so the process terminates —
no default value is substituted. -/
theorem malformed_numeric_fatal (d : device) (fs : Fs) :
    (stoull (read_file fs "mem_info_vram_used") = none → d.vram fs = none) ∧
    (stod (read_file fs "gpu_busy_percent") = none → d.busy fs = none) := by
  constructor
  · intro h
    simp [device.vram, h]
  · intro h
    simp [device.busy, h]

/-- C7 witness: with every file reading "abc", both fetches abort. -/
theorem malformed_numeric_fatal_witness :
    dev0.vram fsAbc = none ∧ dev0.busy fsAbc = none :=
  ⟨(malformed_numeric_fatal dev0 fsAbc).1 (by decide),
   (malformed_numeric_fatal dev0 fsAbc).2 (by decide)⟩

/-- C8: on a fresh registry with all 12 kinds enabled,
`disable_options "busy,fan"` disables exactly `busy` (index 0) and `fan`
(index 6), leaving 10 of the 12 kinds enabled; a token matching no
canonical name leaves the registry unchanged. -/
theorem disable_list_busy_fan :
    disable_options (List.replicate row_count true) "busy,fan" =
      [false, true, true, true, true, true, false, true, true, true, true, true] ∧
    (disable_options (List.replicate row_count true) "busy,fan").count true = 10 ∧
    (∀ (rows : List Bool) (opt : String), info_map opt = none →
      disable_option rows opt = rows) := by
  refine ⟨by decide, by decide, ?_⟩
  intro rows opt h
  simp [disable_option, h]

/-- C8 witness: the unknown token "nonsense" is silently ignored. -/
theorem disable_list_busy_fan_witness :
    disable_option [true] "nonsense" = [true] :=
  disable_list_busy_fan.2.2 [true] "nonsense" (by decide)

/-- C9: when every row flag is false, `main` prints the one-line notice,
exits with status 0 and never initializes the terminal or enters the
render loop; otherwise it proceeds into the UI.  `allDisabled` holds
exactly when every flag is false. -/
theorem all_disabled_refuses_start (rows : List Bool) :
    (allDisabled rows = true →
      start_decision rows =
        { printed := some "All rows disabled. Exiting.", exit_code := 0,
          entered_ui := false }) ∧
    (allDisabled rows = false →
      start_decision rows = { printed := none, exit_code := 0, entered_ui := true }) ∧
    (allDisabled rows = true ↔ ∀ b ∈ rows, b = false) := by
  refine ⟨fun h => by simp [start_decision, h], fun h => by simp [start_decision, h], ?_⟩
  simp [allDisabled, List.all_eq_true]

/-- C9 witness: with both flags false the program refuses to start the
UI and exits 0 after printing the notice. -/
theorem all_disabled_refuses_start_witness :
    start_decision [false, false] =
      { printed := some "All rows disabled. Exiting.", exit_code := 0,
        entered_ui := false } :=
  (all_disabled_refuses_start [false, false]).1 (by decide)

/-- C10: a telemetry file that exists but whose first line is empty
makes `read_file` return the empty string — not the "0" sentinel, which
is reserved for unopenable files — so the subsequent numeric fetch hits
the fatal malformed-content path (`std::stoull("")` throws) instead of
silently reading 0. -/
theorem empty_file_not_defaulted (fs : Fs) (lines : List String) (d : device)
    (h : fs "mem_info_vram_used" = some lines) (h2 : lines.headD "" = "") :
    read_file fs "mem_info_vram_used" = "" ∧
    read_file fs "mem_info_vram_used" ≠ "0" ∧
    d.vram fs = none := by
  have hr : read_file fs "mem_info_vram_used" = "" := by
    simp only [read_file, h]
    exact h2
  have hs : stoull "" = none := by decide
  refine ⟨hr, by simp [hr], ?_⟩
  simp [device.vram, hr, hs]

/-- C10 witness: an empty `mem_info_vram_used` file aborts the vram
fetch rather than defaulting it. -/
theorem empty_file_not_defaulted_witness :
    read_file fsEmptyVram "mem_info_vram_used" = "" ∧
    read_file fsEmptyVram "mem_info_vram_used" ≠ "0" ∧
    dev0.vram fsEmptyVram = none :=
  empty_file_not_defaulted fsEmptyVram [] dev0 (by decide) rfl

end Gpumon
